import Mathlib

/-!
Verification of the id3-js-core codec against its specification.

The TypeScript sources are shallowly embedded: Node `Buffer` values become
`List Nat` (one `Nat` per byte), JavaScript numbers become `Nat` where the
source only ever holds non-negative integers and `Int` where sign matters,
and every operation that can throw in Node (out-of-range buffer writes,
`readIntBE` with a bad byte length, identifier remaps without a table entry,
explicit `throw new Error`) returns `Except String`.

JavaScript 32-bit bitwise semantics (`ToInt32`) are modelled by identifying a
signed 32-bit integer with its unsigned residue modulo 2^32: `x & y`, `x | y`,
`x ^ y`, `x << k` on int32 values have the same bit patterns as `&&&`, `|||`,
`^^^`, `<<<` on the residues, with an explicit `% 2^32` applied where the
source lets a shift overflow 32 bits.
-/

namespace Id3

/-- Big-endian byte representation of `v`, exactly `len` bytes (most
significant first), i.e. the digits of `v % 2^(8*len)` in base 256. -/
def toBytesBE : Nat → Nat → List Nat
  | 0, _ => []
  | len + 1, v => toBytesBE len (v / 256) ++ [v % 256]

/-- Read a big-endian byte list as an unsigned integer. -/
def fromBytesBE (bytes : List Nat) : Nat :=
  bytes.foldl (fun acc b => 256 * acc + b) 0

/-- Model of `Buffer.alloc(n, 0)`. -/
def bufAlloc (n : Nat) : List Nat := List.replicate n 0

/-- Overwrite `buf` starting at `offset` with `bytes` (caller guarantees the
write fits; the checked write wrappers below enforce that). -/
def spliceAt (buf : List Nat) (offset : Nat) (bytes : List Nat) : List Nat :=
  buf.take offset ++ bytes ++ buf.drop (offset + bytes.length)

/-- Core of the Node `Buffer` big-endian write family: checks the value
range `[lo, hi]` and that `offset + len` fits in the buffer, then stores the
two's-complement residue of `v` as `len` big-endian bytes.  Node throws
`ERR_OUT_OF_RANGE` in exactly these two failure cases. -/
def writeBEchecked (buf : List Nat) (v lo hi : Int) (offset len : Nat) :
    Except String (List Nat) :=
  if v < lo ∨ hi < v then .error "ERR_OUT_OF_RANGE: value out of range"
  else if buf.length < offset + len then .error "ERR_OUT_OF_RANGE: offset out of range"
  else .ok (spliceAt buf offset (toBytesBE len (v % ((2 : Int) ^ (8 * len))).toNat))

/-- Model of `buf.writeIntBE(v, offset, len)`: `len` must be 1..6. -/
def writeIntBE (buf : List Nat) (v : Int) (offset len : Nat) :
    Except String (List Nat) :=
  if len < 1 ∨ 6 < len then .error "ERR_OUT_OF_RANGE: byteLength out of range"
  else writeBEchecked buf v (-((2 : Int) ^ (8 * len - 1))) ((2 : Int) ^ (8 * len - 1) - 1) offset len

/-- Model of `buf.writeUIntBE(v, offset, len)`: `len` must be 1..6. -/
def writeUIntBE (buf : List Nat) (v : Int) (offset len : Nat) :
    Except String (List Nat) :=
  if len < 1 ∨ 6 < len then .error "ERR_OUT_OF_RANGE: byteLength out of range"
  else writeBEchecked buf v 0 ((2 : Int) ^ (8 * len) - 1) offset len

/-- Model of `buf.writeInt16BE(v, offset)`. -/
def writeInt16BE (buf : List Nat) (v : Int) (offset : Nat) : Except String (List Nat) :=
  writeBEchecked buf v (-32768) 32767 offset 2

/-- Model of `buf.writeInt32BE(v, offset)`. -/
def writeInt32BE (buf : List Nat) (v : Int) (offset : Nat) : Except String (List Nat) :=
  writeBEchecked buf v (-2147483648) 2147483647 offset 4

/-- Model of `buf.writeUInt32BE(v, offset)`. -/
def writeUInt32BE (buf : List Nat) (v : Int) (offset : Nat) : Except String (List Nat) :=
  writeBEchecked buf v 0 4294967295 offset 4

/-- Model of `buf.readIntBE(offset, len)` (signed big-endian read): Node
requires `1 ≤ len ≤ 6` and the read to lie inside the buffer and throws
otherwise. -/
def readIntBE (buf : List Nat) (offset len : Int) : Except String Int :=
  if len < 1 ∨ 6 < len then .error "ERR_OUT_OF_RANGE: byteLength out of range"
  else if offset < 0 ∨ (buf.length : Int) < offset + len then
    .error "ERR_OUT_OF_RANGE: offset out of range"
  else
    let u := fromBytesBE ((buf.drop offset.toNat).take len.toNat)
    .ok (if 2 ^ (8 * len.toNat - 1) ≤ u then (u : Int) - 2 ^ (8 * len.toNat) else (u : Int))

/-- Model of `buf.readInt32BE(offset)` (4-byte signed read, bounds checked). -/
def readInt32BE (buf : List Nat) (offset : Int) : Except String Int :=
  readIntBE buf offset 4

/-- Model of `buf.readInt16BE(offset)` (2-byte signed read, bounds checked). -/
def readInt16BE (buf : List Nat) (offset : Int) : Except String Int :=
  readIntBE buf offset 2

/-- Model of `buffer.indexOf(v, start)`: index of the first occurrence at or
after `start`, or `-1` when there is none. -/
def jsIndexOf (buf : List Nat) (v : Nat) (start : Nat := 0) : Int :=
  match (buf.drop start).findIdx? (fun b => b = v) with
  | some i => ((start + i : Nat) : Int)
  | none => -1

/-- Model of `buffer.slice(start, end)` / `subarray`: negative indices count
from the end of the buffer, and both bounds are clamped to `[0, length]`. -/
def jsSlice (buf : List Nat) (start fin : Int) : List Nat :=
  let n : Int := buf.length
  let norm : Int → Nat := fun i => (if i < 0 then max (n + i) 0 else min i n).toNat
  (buf.take (norm fin)).drop (norm start)

/-- Model of `buffer.slice(start)` (up to the end of the buffer). -/
def jsSliceFrom (buf : List Nat) (start : Int) : List Nat :=
  jsSlice buf start buf.length

/-- Model of an indexed byte access `buf[i]`.  JavaScript yields `undefined`
out of bounds; every access made by the theorems below is in bounds, and the
out-of-bounds value is collapsed to 0. -/
def jsGet (buf : List Nat) (i : Int) : Nat :=
  if i < 0 then 0 else buf.getD i.toNat 0

/-- Bytes of a JavaScript string under the latin1 encoding (code points are
truncated to one byte, as Node does for `Buffer.from(s, "latin1")`). -/
def latin1Bytes (s : String) : List Nat :=
  s.data.map (fun c => c.toNat % 256)

/-- Model of `buf.write(str, offset, length, "latin1")`: writes at most
`length` bytes, additionally capped by the space left in the buffer (Node
never grows the buffer and never throws here). -/
def bufWrite (buf : List Nat) (str : List Nat) (offset len : Nat) : List Nat :=
  spliceAt buf offset (str.take (min len (buf.length - offset)))

/-- Binary digits with explicit fuel (the value itself bounds the number of
halvings), keeping the recursion structural so that terms reduce inside the
kernel. -/
def natBitsFuel : Nat → Nat → List Bool
  | 0, _ => []
  | _ + 1, 0 => []
  | fuel + 1, n => natBitsFuel fuel (n / 2) ++ [decide (n % 2 = 1)]

/-- Binary digits of `n`, most significant first, empty for 0 (helper for
the JavaScript `toString(2)` model). -/
def natBits (n : Nat) : List Bool :=
  natBitsFuel n n

/-- Model of `n.toString(2).split("").map(c => c === "1")` for a non-negative
`n`: the binary digit string has no leading zeroes and is `"0"` for 0. -/
def jsBits (n : Nat) : List Bool :=
  if n = 0 then [false] else natBits n

/-- Model of `n.toString(2)` for a non-negative JavaScript number. -/
def natBinString (n : Nat) : String :=
  String.mk ((jsBits n).map (fun b => if b then '1' else '0'))

/-- Model of `parseInt(s, 2)`: skip leading whitespace, read binary digits
until the first other character, `none` (NaN) when no digit was read.  The
strings this is applied to never carry a sign, so none is modelled. -/
def jsParseInt2 (s : String) : Option Nat :=
  let rest := s.data.dropWhile (fun c => c = ' ' ∨ c = '\n' ∨ c = '\t')
  let digits := rest.takeWhile (fun c => c = '0' ∨ c = '1')
  if digits.isEmpty then none
  else some (digits.foldl (fun acc c => 2 * acc + (if c = '1' then 1 else 0)) 0)

/-- Left-to-right value of a bit list (most significant bit first). -/
def bitsToNat (bits : List Bool) : Nat :=
  bits.foldl (fun acc b => 2 * acc + (if b then 1 else 0)) 0

namespace SynchsafeInteger

/-- One iteration of the loop in `SynchsafeInteger.encode`
(src/unnamed/part_021): `out = val & ~mask; out <<= 1; out |= val & mask`.
On int32 values `val & ~mask` equals `val &&& (0xFFFFFFFF ^^^ mask)` on the
residues mod 2^32, and the shift is truncated back to 32 bits. -/
def step (mask val : Nat) : Nat :=
  (((val &&& (0xFFFFFFFF ^^^ mask)) <<< 1) % 2 ^ 32) ||| (val &&& mask)

/-- Model of `SynchsafeInteger.encode` (src/unnamed/part_021 lines 10-25).
The `while (mask ^ 0x7FFFFFFF)` loop runs exactly three times, with
`mask` taking the values 0x7F, 0x7FFF, 0x7FFFFF before reaching 0x7FFFFFFF;
the three iterations are unrolled here. -/
def encode (value : Nat) : Nat :=
  step 0x7FFFFF (step 0x7FFF (step 0x7F (value % 2 ^ 32)))

/-- Model of `SynchsafeInteger.decode` (src/unnamed/part_021 lines 32-43).
The `while (mask)` loop runs exactly four times with `mask` taking the
values 0x7F000000, 0x7F0000, 0x7F00, 0x7F; the iterations are unrolled. -/
def decode (value : Nat) : Nat :=
  let v := value % 2 ^ 32
  let o1 := (0 >>> 1) ||| (v &&& 0x7F000000)
  let o2 := (o1 >>> 1) ||| (v &&& 0x7F0000)
  let o3 := (o2 >>> 1) ||| (v &&& 0x7F00)
  (o3 >>> 1) ||| (v &&& 0x7F)

/-- Wrapper applying `decode` to a possibly-negative JavaScript number: every
bitwise operation in the source first coerces through `ToInt32`, so only the
residue mod 2^32 matters. -/
def decodeJS (value : Int) : Nat :=
  decode (value % ((2 : Int) ^ 32)).toNat

end SynchsafeInteger

namespace Unsynchronisation

/-- Model of `Unsynchronisation.encode` (src/src/utils/unsynchronisation.ts
lines 12-27): copy each byte, and after a 0xFF that is followed by 0x00, by a
byte at least 0xE0, or by nothing, insert a 0x00. -/
def encode : List Nat → List Nat
  | [] => []
  | x :: rest =>
    if x = 0xFF then
      match rest with
      | [] => [0xFF, 0x00]
      | y :: _ =>
        if y = 0x00 ∨ 0xE0 ≤ y then x :: 0x00 :: encode rest
        else x :: encode rest
    else x :: encode rest

/-- Model of `Unsynchronisation.decode` (src/src/utils/unsynchronisation.ts
lines 34-47): copy each byte, and after any 0xFF skip one byte. -/
def decode : List Nat → List Nat
  | [] => []
  | [x] => [x]
  | x :: y :: rest =>
    if x = 0xFF then x :: decode rest
    else x :: decode (y :: rest)

/-- A byte sequence on which the insertion rule of `encode` fires after every
0xFF: each 0xFF is the last byte or is followed by 0x00 or a byte ≥ 0xE0. -/
def coveredInput : List Nat → Bool
  | [] => true
  | [_] => true
  | x :: y :: rest =>
    (decide (x ≠ 0xFF) || decide (y = 0x00) || decide (0xE0 ≤ y)) && coveredInput (y :: rest)

end Unsynchronisation

/-- ID3v2 spec revision.  The TypeScript sources type versions as the union
`2 | 3 | 4`; call sites can never pass another number, so the embedding uses
an inductive instead of `Nat` and drops the sources' unreachable
`default: throw new Error(...)` branches of `switch`es over this type. -/
inductive ID3Version where
  | v2
  | v3
  | v4
deriving DecidableEq, Repr

/-- Numeric value of a version, as interpolated into identifiers/messages. -/
def ID3Version.toNat : ID3Version → Nat
  | .v2 => 2
  | .v3 => 3
  | .v4 => 4

/-- Model of `Utils.getIdentifierLength` (src/unnamed/part_026 lines 193-195):
`ID3Version > 2 ? 4 : 3`. -/
def getIdentifierLength : ID3Version → Nat
  | .v2 => 3
  | _ => 4

/-- Latin1 view of a byte list as a JavaScript string
(`buffer.toString("latin1")`). -/
def strFromLatin1 (bytes : List Nat) : String :=
  String.mk (bytes.map (fun b => Char.ofNat (b % 256)))

namespace FlagByte

/-- Model of `FlagByte.encode` (src/src/utils/flagByte.ts lines 11-13):
`parseInt(flags.map(f => f ? "1" : "0").join("").padEnd(byteCount * 8, "0"), 2)`.
The digit string is the flag list padded on the right with zeroes up to
`byteCount * 8` digits (and kept as is when already longer). -/
def encode (flags : List Bool) (byteCount : Nat := 1) : Nat :=
  bitsToNat (flags ++ List.replicate (byteCount * 8 - flags.length) false)

end FlagByte

/-- Tag restrictions as supplied by the caller
(src/src/decoder/decodeTagHeader.ts interface ITagRestrictions). -/
structure TagRestrictions where
  tagSize : Nat
  textEncoding : Nat
  textFieldSize : Nat
  imageEncoding : Nat
  imageSize : Nat
deriving DecidableEq, Repr

/-- Model of `IUserDefinedEncodingOptions`
(src/src/encoder/encodingOptions.ts lines 32-54): every field optional;
`none` is JavaScript `undefined`. -/
structure UserEncodingOptions where
  ID3Version : Option ID3Version := none
  textEncoding : Option String := none
  unsynchronisation : Option Bool := none
  experimental : Option Bool := none
  tagIsAnUpdate : Option Bool := none
  crcData : Option Int := none
  tagRestrictions : Option TagRestrictions := none
deriving DecidableEq, Repr

/-- Model of the computed `IEncodingOptions`
(src/src/encoder/encodingOptions.ts lines 12-20).  The `textEncoding` field
of the source holds a `TextEncodingType` object; only its name is relevant
to the functions embedded here, so the name is stored. -/
structure EncodingOptions where
  ID3Version : ID3Version
  textEncoding : String
  unsynchronisation : Bool
  experimental : Bool
  tagIsAnUpdate : Bool
  crcData : Option Int := none
  tagRestrictions : Option TagRestrictions := none
deriving DecidableEq, Repr

/-- The identifier remap table (`remappedFrames`), inlined in
src/unnamed/part_026 lines 437-500. -/
def remappedFrames : List (String × String) :=
  [ ("BUF", "RBUF"), ("CNT", "PCNT"), ("COM", "COMM"), ("CRA", "AENC"),
    ("ETC", "ETCO"), ("EQU", "EQUA"), ("GEO", "GEOB"), ("IPL", "IPLS"),
    ("LNK", "LINK"), ("MCI", "MCDI"), ("MLL", "MLLT"), ("PIC", "APIC"),
    ("POP", "POPM"), ("REV", "RVRB"), ("RVA", "RVAD"), ("SLT", "SYLT"),
    ("STC", "SYTC"), ("TAL", "TALB"), ("TBP", "TBPM"), ("TCM", "TCOM"),
    ("TCO", "TCON"), ("TCR", "TCOP"), ("TDA", "TDAT"), ("TDY", "TDLY"),
    ("TEN", "TENC"), ("TFT", "TFLT"), ("TIM", "TIME"), ("TKE", "TKEY"),
    ("TLA", "TLAN"), ("TLE", "TLEN"), ("TMT", "TMED"), ("TOA", "TOPE"),
    ("TOF", "TOFN"), ("TOL", "TOLY"), ("TOR", "TORY"), ("TOT", "TOAL"),
    ("TP1", "TPE1"), ("TP2", "TPE2"), ("TP3", "TPE3"), ("TP4", "TPE4"),
    ("TPA", "TPOS"), ("TPB", "TPUB"), ("TRC", "TSRC"), ("TRD", "TRDA"),
    ("TRK", "TRCK"), ("TSI", "TSIZ"), ("TSS", "TSSE"), ("TT1", "TIT1"),
    ("TT2", "TIT2"), ("TT3", "TIT3"), ("TXT", "TEXT"), ("TXX", "TXXX"),
    ("TYE", "TYER"), ("UFI", "UFID"), ("ULT", "USLT"), ("WAF", "WOAF"),
    ("WAR", "WOAR"), ("WAS", "WOAS"), ("WCM", "WCOM"), ("WCP", "WCOP"),
    ("WPB", "WPUB"), ("WXX", "WXXX") ]

/-- Model of `Utils.getCorrectIdentifier` (src/unnamed/part_026 lines
436-517): a 3-character identifier is a v2.2 one, anything else a v2.3 one;
remapping to v2.4 from v2.3, or to the identifier's own version, is the
identity; otherwise the remap table is searched and a missing entry throws. -/
def getCorrectIdentifier (identifier : String) (target : ID3Version) :
    Except String String :=
  let originalIsV2 := identifier.length = 3
  if (¬originalIsV2 ∧ target = .v4) ∨
      (originalIsV2 ∧ target = .v2) ∨ (¬originalIsV2 ∧ target = .v3) then
    .ok identifier
  else
    let pos := if originalIsV2 then 0 else 1
    match remappedFrames.find? (fun p => (if pos = 0 then p.1 else p.2) = identifier) with
    | some p => .ok (if pos = 0 then p.2 else p.1)
    | none =>
      .error ("Cannot remap the identifier (" ++ identifier ++ " from version "
        ++ toString (if originalIsV2 then 2 else 3) ++ " to version "
        ++ toString target.toNat ++ ")")

/-- Modelled from the spec: the `framesToBeDiscardedOnFileAlter` list lives
in `data.json`, which is not part of the snapshot; spec section 4.3 and the
doc comment of `IV3FrameFlags.discardOnFileAlteration`
(src/src/decoder/decodeTagHeader.ts lines 250-253) both give this set. -/
def framesToBeDiscardedOnFileAlter : List String :=
  [ "ASPI", "AENC", "ETCO", "EQUA", "EQU2", "MLLT", "POSS", "SEEK",
    "SYLT", "SYTC", "RVAD", "RVA2", "TENC", "TLEN", "TSIZ" ]

/-- Frame flags.  `IV3FrameFlags` has the six Boolean fields;
`IV4FrameFlags` adds `unsynchronisation` and `dataLengthIndicator`.  The
union type is modelled with `Option` for the two v4-only fields (`none`
is a v3 flag object, where the source reads them as `undefined`, which is
falsy). -/
structure FrameFlags where
  discardOnTagAlteration : Bool
  discardOnFileAlteration : Bool
  readOnly : Bool
  compression : Bool
  encryption : Bool
  groupingIdentity : Bool
  unsynchronisation : Option Bool := none
  dataLengthIndicator : Option Bool := none
deriving DecidableEq, Repr

/-- Result object of the per-component `supportsVersion` checks
(src/src/encoder/isVersionSupported.ts interface IVersionSupport). -/
structure IVersionSupport where
  supportsVersion : Bool
  reason : String
deriving DecidableEq, Repr

namespace FrameFlagManager

/-- Model of `FrameFlagManager.getBinaryRepresentation`
(src/src/frames/frameComponents/frameFlagManager.ts lines 152-183).  The
source builds the representation with a multi-line template literal, so the
returned string embeds the template's newlines and tab indentation between
the digit groups; the exact amount of indentation is irrelevant to every
consumer (`parseInt` skips leading whitespace and stops at the first
non-digit, and the only comparison is against the whitespace-free
`"0".repeat(16)`), and four tabs are used here.  Note the v3 branch encodes
`discardOnTagAlteration` and `discardOnFileAlteration` inverted ("0" when
set), exactly as the source does. -/
def getBinaryRepresentation (flags : Option FrameFlags) (v : ID3Version) : String :=
  match flags with
  | none => String.mk (List.replicate 16 '0')
  | some f =>
    if v = .v3 then
      "\n\t\t\t\t" ++ (if f.discardOnTagAlteration then "0" else "1")
        ++ "\n\t\t\t\t" ++ (if f.discardOnFileAlteration then "0" else "1")
        ++ "\n\t\t\t\t" ++ (if f.readOnly then "1" else "0")
        ++ "\n\t\t\t\t" ++ "00000"
        ++ "\n\t\t\t\t" ++ (if f.compression then "1" else "0")
        ++ "\n\t\t\t\t" ++ (if f.encryption then "1" else "0")
        ++ "\n\t\t\t\t" ++ (if f.groupingIdentity then "1" else "0")
        ++ "\n\t\t\t\t" ++ "00000" ++ "\n\t\t\t"
    else
      "\n\t\t\t" ++ "0"
        ++ "\n\t\t\t" ++ (if f.discardOnTagAlteration then "1" else "0")
        ++ "\n\t\t\t" ++ (if f.discardOnFileAlteration then "1" else "0")
        ++ "\n\t\t\t" ++ (if f.readOnly then "1" else "0")
        ++ "\n\t\t\t" ++ "00000"
        ++ "\n\t\t\t" ++ (if f.groupingIdentity then "1" else "0")
        ++ "\n\t\t\t" ++ "00"
        ++ "\n\t\t\t" ++ (if f.compression then "1" else "0")
        ++ "\n\t\t\t" ++ (if f.encryption then "1" else "0")
        ++ "\n\t\t\t" ++ (if f.unsynchronisation.getD false then "1" else "0")
        ++ "\n\t\t\t" ++ (if f.dataLengthIndicator.getD false then "1" else "0")
        ++ "\n\t\t"

/-- Model of `FrameFlagManager.supportsVersion`
(src/src/frames/frameComponents/frameFlagManager.ts lines 31-98; the code
after the `switch` is unreachable and not modelled). -/
def supportsVersion (flags : Option FrameFlags) (v : ID3Version) : IVersionSupport :=
  match v with
  | .v2 =>
    if getBinaryRepresentation flags .v4 ≠ String.mk (List.replicate 16 '0') then
      { supportsVersion := false,
        reason := "There are flags set, this is not supported in ID3v2.2" }
    else
      { supportsVersion := true, reason := "" }
  | .v3 =>
    if (flags.bind (fun f => f.unsynchronisation)).getD false then
      { supportsVersion := false,
        reason := "The unsynchronisation flag is set, this is only supported in ID3v2.4" }
    else if (flags.bind (fun f => f.dataLengthIndicator)).getD false then
      { supportsVersion := false,
        reason := "The data length indicator flag is set, this is only supported in ID3v2.4" }
    else
      { supportsVersion := true, reason := "" }
  | .v4 => { supportsVersion := true, reason := "" }

/-- Model of `FrameFlagManager.setDefaultFlags`
(src/src/frames/frameComponents/frameFlagManager.ts lines 106-132): all
flags false except `discardOnFileAlteration`, which is set for the
spec-defined identifier list; the v4 variant carries explicit false values
for the two v4-only flags.  Propagates the possible remap failure of
`getCorrectIdentifier`. -/
def setDefaultFlags (identifier : String) (v : ID3Version) :
    Except String FrameFlags := do
  let id3 ← getCorrectIdentifier identifier .v3
  let base : FrameFlags :=
    { discardOnTagAlteration := false,
      discardOnFileAlteration := framesToBeDiscardedOnFileAlter.contains id3,
      readOnly := false, compression := false, encryption := false,
      groupingIdentity := false }
  match v with
  | .v3 => return base
  | .v4 => return { base with unsynchronisation := some false, dataLengthIndicator := some false }
  | .v2 => .error "Invalid ID3v2 version for flags: 2"

/-- Model of `FrameFlagManager.encode`
(src/src/frames/frameComponents/frameFlagManager.ts lines 139-145):
`writeInt16BE(parseInt(binaryRepresentation, 2), 0)` into a 2-byte buffer.
A `parseInt` result of NaN (never produced by the templates, whose first
non-whitespace character is always a digit) would make the write throw. -/
def encodeFlags (flags : Option FrameFlags) (opts : EncodingOptions) :
    Except String (List Nat) :=
  match jsParseInt2 (getBinaryRepresentation flags opts.ID3Version) with
  | none => .error "ERR_OUT_OF_RANGE: NaN flag value"
  | some v => writeInt16BE (bufAlloc 2) v 0

end FrameFlagManager

/-- Ceiling base-2 logarithm with explicit fuel (structural recursion so
that terms reduce inside the kernel): the least `e` with `m ≤ 2^e`, via
`clog2 m = clog2 (ceil (m / 2)) + 1` for `m > 1`. -/
def ceilLog2Fuel : Nat → Nat → Nat
  | 0, _ => 0
  | fuel + 1, m => if m ≤ 1 then 0 else ceilLog2Fuel fuel ((m + 1) / 2) + 1

/-- Ceiling base-2 logarithm: the least `e` with `m ≤ 2^e`. -/
def ceilLog2 (m : Nat) : Nat :=
  ceilLog2Fuel m m

/-- Model of the byte-width computation `Math.ceil(Math.log2(n + 1) / 8)`
used by `bufferFromNumbers` and the MLLT encoder.  For integers `m = n + 1 ≥ 1`
the real-arithmetic value `ceil(log2(m) / 8)` is the least `k` with
`m ≤ 2^(8k)`, which equals `ceil(ceilLog2(m) / 8)`; `Math.log2` on doubles is
exact on every input these functions receive. -/
def ceilLog2Div8 (n : Nat) : Nat :=
  (ceilLog2 (n + 1) + 7) / 8

/-- Model of `bufferFromNumbers` (src/src/utils/bufferFromNumbers.ts).  When
`bytesPerNumber` is absent the buffer size comes from `numbers.reduce` with
no initial value, so a single-element list contributes the element itself
(not its byte width) and an empty list throws a TypeError; each number is
then written at its own minimal width, and a width of 0 (for the value 0)
makes `writeIntBE` throw.  Negative numbers would give a NaN width
(`Math.log2` of a non-positive argument), which also makes the write throw. -/
def bufferFromNumbers (numbers : List Int) (bytesPerNumber : Option Nat) :
    Except String (List Nat) := do
  let widthOf : Int → Except String Nat := fun n =>
    match bytesPerNumber with
    | some b => .ok b
    | none =>
      if n < 0 then .error "ERR_OUT_OF_RANGE: NaN byteLength"
      else .ok (ceilLog2Div8 n.toNat)
  let bufferSize ←
    match bytesPerNumber with
    | some b => pure (b * numbers.length)
    | none =>
      match numbers with
      | [] => .error "TypeError: reduce of empty array with no initial value"
      | first :: rest => do
        if first < 0 then
          .error "ERR_INVALID_ARG_VALUE: negative buffer size"
        else
          let extra ← rest.mapM (fun n => do
            if n < 0 then .error "ERR_OUT_OF_RANGE: NaN byteLength"
            else pure (ceilLog2Div8 n.toNat))
          pure (first.toNat + extra.sum)
  let rec writeAll (buf : List Nat) (offset : Nat) : List Int → Except String (List Nat)
    | [] => .ok buf
    | n :: rest => do
      let len ← widthOf n
      let buf ← writeIntBE buf n offset len
      writeAll buf (offset + len) rest
  writeAll (bufAlloc bufferSize) 0 numbers

/-- Value of an equalisation V2 adjustment point
(src/src/frames/equalisationFrameV2.ts interface IAdjustment). -/
structure EQU2Adjustment where
  frequency : Int
  volumeAdjustment : Int
deriving DecidableEq, Repr

/-- Value of an equalisation V2 frame
(src/src/frames/equalisationFrameV2.ts interface IEqualisationV2Value).
String fields hold their latin1 byte content. -/
structure EqualisationV2Value where
  identification : List Nat
  interpolationMethod : Nat
  adjustments : List EQU2Adjustment
deriving DecidableEq, Repr

/-- Value of a popularimeter frame
(src/src/frames/popularimeter.ts interface IPopularimeterValue).  The email
holds its latin1 byte content. -/
structure PopularimeterValue where
  email : List Nat
  rating : Nat
  playCount : Int
deriving DecidableEq, Repr

/-- Value of a UFID frame (src/src/frames/ufidFrame.ts interface IUFIDValue).
The owner identifier holds its latin1 byte content, the identifier is an
opaque byte buffer. -/
structure UFIDValue where
  ownerIdentifier : List Nat
  identifier : List Nat
deriving DecidableEq, Repr

/-- Deviation entry of an MLLT frame (src/src/frames/mpegLocationLookupTableFrame.ts
interface IReferenceDeviation). -/
structure ReferenceDeviation where
  byteDeviation : Int
  millisecondDeviation : Int
deriving DecidableEq, Repr

/-- Value of an MLLT frame (src/src/frames/mpegLocationLookupTableFrame.ts
interface IMPEGLocationLookupTableValue). -/
structure MPEGLocationLookupTableValue where
  MPEGFramesBetweenReferences : Int
  bytesBetweenReferences : Int
  millisecondsBetweenReferences : Int
  deviationOfReferences : List ReferenceDeviation
deriving DecidableEq, Repr

/-- The typed values of the frame kinds embedded here (the kinds the claims
exercise). -/
inductive FrameValue where
  | equalisationV2 : EqualisationV2Value → FrameValue
  | popularimeter : PopularimeterValue → FrameValue
  | ufid : UFIDValue → FrameValue
  | mpegLocationLookupTable : MPEGLocationLookupTableValue → FrameValue
deriving DecidableEq, Repr

/-- A frame object: its typed value, its `identifier` field and the flags
held by its `FrameFlagManager` (`none` until set). -/
structure Frame where
  value : FrameValue
  identifier : String
  flags : Option FrameFlags := none
deriving DecidableEq, Repr

/-- Programmatic construction of an equalisation V2 frame
(src/src/frames/equalisationFrameV2.ts lines 98-102): sets the identifier
to "EQU2". -/
def mkEqualisationV2Frame (v : EqualisationV2Value) : Frame :=
  { value := .equalisationV2 v, identifier := "EQU2" }

/-- Programmatic construction of a popularimeter frame
(src/src/frames/popularimeter.ts lines 63-67): sets the identifier to
"POPM". -/
def mkPopularimeterFrame (v : PopularimeterValue) : Frame :=
  { value := .popularimeter v, identifier := "POPM" }

/-- Programmatic construction of an MLLT frame
(src/src/frames/mpegLocationLookupTableFrame.ts lines 101-105): sets the
identifier to "MLLT". -/
def mkMPEGLocationLookupTableFrame (v : MPEGLocationLookupTableValue) : Frame :=
  { value := .mpegLocationLookupTable v, identifier := "MLLT" }

/-- Programmatic construction of a UFID frame (src/src/frames/ufidFrame.ts
lines 116-144): rejects an empty owner identifier and an identifier longer
than 64 bytes, then sets the frame identifier to "UFID". -/
def mkUFIDFrame (ownerIdentifier : List Nat) (identifier : List Nat) :
    Except String Frame := do
  if ownerIdentifier.length = 0 then
    .error "Owner identifier of a UFID frame cannot be empty"
  else if identifier.length > 64 then
    .error "Identifier of a UFID frame can be at most 64 bytes in length"
  else
    .ok { value := .ufid { ownerIdentifier, identifier }, identifier := "UFID" }

/-- Modelled from the spec: the generic `Frame` base class that carries the
`frameType` property is not among the snapshot's sources; the value only
flows into the human-readable reasons of `isVersionSupported`, so a
descriptive name per embedded kind is used. -/
def Frame.frameType (f : Frame) : String :=
  match f.value with
  | .equalisationV2 _ => "equalisationV2"
  | .popularimeter _ => "popularimeter"
  | .ufid _ => "UFID"
  | .mpegLocationLookupTable _ => "MPEGLocationLookupTable"

/-- Per-kind `contentSupportsVersion`: equalisation V2 frames support only
v2.4 (src/src/frames/equalisationFrameV2.ts lines 137-145); popularimeter,
UFID and MLLT frames support every version (src/src/frames/popularimeter.ts
lines 90-95, src/src/frames/ufidFrame.ts lines 166-171,
src/src/frames/mpegLocationLookupTableFrame.ts lines 168-173). -/
def Frame.contentSupportsVersion (f : Frame) (v : ID3Version) : IVersionSupport :=
  match f.value with
  | .equalisationV2 _ =>
    if v = .v4 then { supportsVersion := true, reason := "" }
    else { supportsVersion := false,
           reason := "Equalisation v2 frames are only supported in ID3v2.4" }
  | _ => { supportsVersion := true, reason := "" }

/-- Modelled from the spec: the generic `Frame` base class member
`supportsVersion` called by `isVersionSupported` is not among the snapshot's
sources (only its subclasses and callers are).  Spec section 4.6 step 1
requires a frame to support a version under both the flag criteria
(`FrameFlagManager.supportsVersion`) and the content criteria
(`contentSupportsVersion`); a flag failure is reported first. -/
def Frame.supportsVersion (f : Frame) (v : ID3Version) : IVersionSupport :=
  let flagSupport := FrameFlagManager.supportsVersion f.flags v
  if ¬flagSupport.supportsVersion then flagSupport
  else f.contentSupportsVersion v

/-- Model of `EqualisationV2Frame.encodeContent`
(src/src/frames/equalisationFrameV2.ts lines 110-130): interpolation byte,
latin1 identification, a 0x00 separator, then per adjustment a 4-byte block
with the frequency and the volume adjustment both written via
`writeInt16BE` (signed, so a frequency above 32767 throws). -/
def equalisationV2EncodeContent (v : EqualisationV2Value) :
    Except String (List Nat) := do
  let blocks ← v.adjustments.mapM (fun a => do
    let b ← writeInt16BE (bufAlloc 4) a.frequency 0
    writeInt16BE b a.volumeAdjustment 2)
  return [v.interpolationMethod % 256] ++ v.identification ++ [0x00] ++ blocks.flatten

/-- Model of `PopularimeterFrame.encodeContent`
(src/src/frames/popularimeter.ts lines 75-83): latin1 email bytes with no
terminator, the rating byte, then the play count via `bufferFromNumbers`
(width 4 when the play count is below 2^32 - 1, minimal width otherwise). -/
def popularimeterEncodeContent (v : PopularimeterValue) :
    Except String (List Nat) := do
  let pc ← bufferFromNumbers [v.playCount]
    (if v.playCount < 2 ^ 32 - 1 then some 4 else none)
  return v.email ++ [v.rating % 256] ++ pc

/-- Model of `UFIDFrame.encodeContent` (src/src/frames/ufidFrame.ts lines
151-159): allocates `this.identifier.length + 1` bytes — the length of the
FRAME identifier string (e.g. "UFID"), not of the owner identifier — writes
the owner into it (capped at the buffer size), and appends the identifier
bytes. -/
def ufidEncodeContent (frameIdentifier : String) (v : UFIDValue) :
    Except String (List Nat) := do
  let contentBuffer := bufAlloc (frameIdentifier.length + 1)
  let written := bufWrite contentBuffer v.ownerIdentifier 0 v.ownerIdentifier.length
  return written ++ v.identifier

/-- Maximum of a list of JavaScript numbers (`Math.max(...l)`); `none`
models the `-Infinity` returned for an empty argument list. -/
def jsMathMax (l : List Int) : Option Int :=
  match l with
  | [] => none
  | x :: rest => some (rest.foldl max x)

/-- Byte width for an MLLT deviation column:
`Math.ceil(Math.log2(max + 1) / 8)`.  `none` models the non-number results
(NaN from a negative maximum, or from the `-Infinity` of an empty list). -/
def mlltWidth (maxDev : Option Int) : Option Nat :=
  match maxDev with
  | none => none
  | some m => if m < 0 then none else some (ceilLog2Div8 m.toNat)

/-- Model of `MPEGLocationLookupTableFrame.encodeContent`
(src/src/frames/mpegLocationLookupTableFrame.ts lines 113-161).  Field
checks first; the 10-byte preamble writes the milliseconds with
`writeIntBE(ms, 2, 5)` — at offset 2, overwriting the bytes-between
references field, exactly as the source does; the deviation entries write
`ref.byteDeviation` twice (source lines 155-156).  A `none` width (NaN)
passes the `> 255` checks (NaN comparisons are false), writes 0 into the
preamble width bytes, and makes the per-reference `Buffer.alloc` throw. -/
def mlltEncodeContent (v : MPEGLocationLookupTableValue) :
    Except String (List Nat) := do
  if v.MPEGFramesBetweenReferences > 65535 then
    .error "MPEG frames between references cannot exceed 65,535"
  else if v.bytesBetweenReferences > 16777215 then
    .error "Bytes between references cannot exceed 16,777,215"
  else if v.millisecondsBetweenReferences > 16777215 then
    .error "Milliseconds between references cannot exceed 16,777,215"
  else do
    let bytesForByteDeviation :=
      mlltWidth (jsMathMax (v.deviationOfReferences.map (fun r => r.byteDeviation)))
    let bytesForMillisecondDeviation :=
      mlltWidth (jsMathMax (v.deviationOfReferences.map (fun r => r.millisecondDeviation)))
    if (bytesForByteDeviation.map (fun b => decide (255 < b * 8))).getD false then
      .error "Byte deviation cannot exceed 2^255"
    else if (bytesForMillisecondDeviation.map (fun b => decide (255 < b * 8))).getD false then
      .error "Millisecond deviation cannot exceed 2^255"
    else do
      let r ← writeInt16BE (bufAlloc 10) v.MPEGFramesBetweenReferences 0
      let r ← writeIntBE r v.bytesBetweenReferences 2 3
      let r ← writeIntBE r v.millisecondsBetweenReferences 2 5
      let r := spliceAt r 8 [((bytesForByteDeviation.map (fun b => b * 8)).getD 0) % 256]
      let r := spliceAt r 9 [((bytesForMillisecondDeviation.map (fun b => b * 8)).getD 0) % 256]
      let refs ← v.deviationOfReferences.mapM (fun ref => do
        match bytesForByteDeviation, bytesForMillisecondDeviation with
        | some wb, some wm => do
          let b ← writeIntBE (bufAlloc (wb + wm)) ref.byteDeviation 0 wb
          writeIntBE b ref.byteDeviation wb wm
        | _, _ => .error "ERR_INVALID_ARG_VALUE: Buffer.alloc(NaN)")
      return r ++ refs.flatten

/-- Dispatch of `encodeContent` over the embedded frame kinds (the abstract
method of the Frame base class). -/
def Frame.encodeContent (f : Frame) (_opts : EncodingOptions) :
    Except String (List Nat) :=
  match f.value with
  | .equalisationV2 v => equalisationV2EncodeContent v
  | .popularimeter v => popularimeterEncodeContent v
  | .ufid v => ufidEncodeContent f.identifier v
  | .mpegLocationLookupTable v => mlltEncodeContent v

/-- Model of `Frame.encode` (src/src/frames/frameComponents/frame.ts lines
59-89).  For every version the size field holds
`Utils.encodeSynchsafeInteger(contentBuffer.length)` — synchsafe-coded for
v2.2 and v2.3 as well, exactly as the source writes it.  When no flags are
set, defaults are installed first (v2.3/v2.4 only). -/
def Frame.encode (f : Frame) (opts : EncodingOptions) : Except String (List Nat) := do
  let content ← f.encodeContent opts
  let identifier ← getCorrectIdentifier f.identifier opts.ID3Version
  match opts.ID3Version with
  | .v2 => do
    let id2 ← getCorrectIdentifier f.identifier .v2
    let hb := bufWrite (bufAlloc 6) (latin1Bytes id2) 0 3
    let hb ← writeUIntBE hb (SynchsafeInteger.encode content.length) 3 3
    return hb ++ content
  | v => do
    let id3 ← getCorrectIdentifier f.identifier .v3
    let hb := bufWrite (bufAlloc 8) (latin1Bytes id3) 0 8
    let hb ← writeUInt32BE hb (SynchsafeInteger.encode content.length) 4
    let effFlags ←
      match f.flags with
      | none => some <$> FrameFlagManager.setDefaultFlags identifier v
      | some fl => pure (some fl)
    let fb ← FrameFlagManager.encodeFlags effFlags opts
    return hb ++ fb ++ content

/-- Result object of `isVersionSupported`
(src/src/encoder/isVersionSupported.ts lines 85-91). -/
structure SupportResult where
  supported : Bool
  reasons : List String
deriving DecidableEq, Repr

/-- Model of the default export of src/src/encoder/isVersionSupported.ts:
collect a reason per unsupported frame, then the per-version checks on the
user options.  Note the source compares `textEncoding?.substr(0, 5)` with
"utf16" against names such as "UTF-16", and the v2.3 tag-restrictions
message says "ID3v2.2" — both kept as in the source. -/
def isVersionSupported (version : ID3Version) (frames : List Frame)
    (opts : UserEncodingOptions) : SupportResult :=
  let frameReasons := frames.filterMap (fun f =>
    let vs := f.supportsVersion version
    if vs.supportsVersion then none
    else some ("Frame of type " ++ f.frameType ++ " cannot be encoded using ID3v2."
      ++ toString version.toNat ++ ": " ++ vs.reason))
  let utf16Requested :=
    match opts.textEncoding with
    | some s => decide ((s.take 5) = "utf16")
    | none => false
  let optionReasons :=
    match version with
    | .v2 =>
      (if utf16Requested then
        ["ID3v2.2 does not support text encoding of type "
          ++ (opts.textEncoding.getD "")] else [])
      ++ (if opts.experimental.getD false then
        ["ID3v2.2 does not support tags being marked as experimental"] else [])
      ++ (if opts.tagIsAnUpdate.getD false then
        ["ID3v2.2 does not support tags being marked as updates"] else [])
      ++ (if opts.crcData.isSome then
        ["ID3v2.2 does not support the inclusion of CRC data"] else [])
      ++ (if opts.tagRestrictions.isSome then
        ["ID3v2.2 does not support the inclusion of tag encoding restrictions"] else [])
    | .v3 =>
      (if utf16Requested then
        ["ID3v2.3 does not support text encoding of type "
          ++ (opts.textEncoding.getD "")] else [])
      ++ (if opts.tagIsAnUpdate.getD false then
        ["ID3v2.3 does not support tags being marked as updates"] else [])
      ++ (if opts.tagRestrictions.isSome then
        ["ID3v2.2 does not support the inclusion of tag encoding restrictions"] else [])
    | .v4 => []
  let reasons := frameReasons ++ optionReasons
  { supported := reasons.isEmpty, reasons }

namespace TagHeaderEncoder

/-- Model of `TagHeaderEncoder.requiresExtendedHeader` (src/unnamed/part_002
lines 332-350): v2.2 never, v2.3 iff CRC data is supplied, v2.4 iff any of
the update flag, CRC data or tag restrictions is supplied. -/
def requiresExtendedHeader (o : EncodingOptions) : Bool :=
  match o.ID3Version with
  | .v2 => false
  | .v3 => o.crcData.isSome
  | .v4 => o.tagIsAnUpdate || o.crcData.isSome || o.tagRestrictions.isSome

/-- Model of `TagHeaderEncoder.generateFlagByte` (src/unnamed/part_002 lines
301-325): the v2.2 flag byte holds only the unsynchronisation bit, v2.3 and
v2.4 add extended-header presence and the experimental bit. -/
def generateFlagByte (o : EncodingOptions) : Nat :=
  match o.ID3Version with
  | .v2 => FlagByte.encode [o.unsynchronisation]
  | _ => FlagByte.encode [o.unsynchronisation, requiresExtendedHeader o, o.experimental]

/-- Model of `TagHeaderEncoder.generateExtendedHeaderV3` (src/unnamed/part_002
lines 225-234).  The source allocates 10 bytes and then performs four writes;
`writeInt16BE(32768, 4)` already exceeds the signed 16-bit maximum 32767 and
throws in Node, and the final `writeInt32BE(crcData, 10)` is out of bounds
for the 10-byte buffer (offset 10 > 10 - 4), so the function can never
return normally. -/
def generateExtendedHeaderV3 (o : EncodingOptions) : Except String (List Nat) := do
  let b ← writeInt32BE (bufAlloc 10) 10 0
  let b ← writeInt16BE b 32768 4
  let b ← writeInt32BE b 0 6
  let b ← writeInt32BE b (o.crcData.getD 0) 10
  return (if o.unsynchronisation then Unsynchronisation.encode b else b)

/-- Model of the restrictions byte built in
`TagHeaderEncoder.generateExtendedHeaderV4` (src/unnamed/part_002 lines
268-283): the five restriction values rendered in binary, the even-indexed
ones left-padded to two digits, concatenated and parsed back with
`parseInt(_, 2)` (0 on NaN via the `Uint8Array` coercion). -/
def restrictionsByte (r : TagRestrictions) : Nat :=
  let pad2 : Nat → String := fun n =>
    let s := natBinString n
    if s.length < 2 then "0" ++ s else s
  (jsParseInt2 (pad2 r.tagSize ++ natBinString r.textEncoding ++ pad2 r.textFieldSize
    ++ natBinString r.imageEncoding ++ pad2 r.imageSize)).getD 0 % 256

/-- Model of `TagHeaderEncoder.generateExtendedHeaderV4` (src/unnamed/part_002
lines 242-293).  Note that the flag-byte pair and the update marker go
through `bufferFromNumbers` with no explicit width, so the update marker
`bufferFromNumbers([0x00])` computes a zero byte length and throws. -/
def generateExtendedHeaderV4 (o : EncodingOptions) : Except String (List Nat) := do
  let flagByte := FlagByte.encode
    [false, o.tagIsAnUpdate, o.crcData.isSome, o.tagRestrictions.isSome]
  let head ← bufferFromNumbers [0x01, (flagByte : Int)] none
  let upd ← if o.tagIsAnUpdate then bufferFromNumbers [0x00] none else pure []
  let crc ←
    match o.crcData with
    | some c => do
      let b := spliceAt (bufAlloc 6) 0 [0x05]
      writeIntBE b (SynchsafeInteger.encode ((c % ((2 : Int) ^ 32)).toNat)) 1 5
    | none => pure []
  let restr :=
    match o.tagRestrictions with
    | some r => [0x01, restrictionsByte r]
    | none => []
  let body := head ++ upd ++ crc ++ restr
  let sizeBuf ← writeInt32BE (bufAlloc 4) body.length 0
  let ext := sizeBuf ++ body
  return (if o.unsynchronisation then Unsynchronisation.encode ext else ext)

/-- Model of `TagHeaderEncoder.encode` (src/unnamed/part_002 lines 194-217):
optional extended header, synchsafe total size, then
`"ID3"`, the version byte, a zero revision byte, the flag byte, the size and
the extended header.  For v2.2 `requiresExtendedHeader` is false, so the
generator table is never consulted (the source would look up a missing
entry). -/
def encode (tagSize : Nat) (o : EncodingOptions) : Except String (List Nat) := do
  let ext ←
    if requiresExtendedHeader o then
      match o.ID3Version with
      | .v3 => generateExtendedHeaderV3 o
      | .v4 => generateExtendedHeaderV4 o
      | .v2 => .error "TypeError: extendedHeaderGenerators[2] is not a function"
    else pure []
  let sizeBuf ← writeInt32BE (bufAlloc 4) (SynchsafeInteger.encode (tagSize + ext.length)) 0
  return latin1Bytes "ID3" ++ [o.ID3Version.toNat, 0x00, generateFlagByte o % 256]
    ++ sizeBuf ++ ext

end TagHeaderEncoder

/-- Modelled from the spec: `defaultEncodingOptions` lives in `data.json`,
which is not part of the snapshot.  Spec section 4.6 only says per-version
defaults exist (text encoding plus the Boolean flags); ISO-8859-1 and false
everywhere is used here, and no theorem below depends on these values. -/
def defaultEncodingOptions (_v : ID3Version) : EncodingOptions :=
  { ID3Version := _v, textEncoding := "ISO-8859-1", unsynchronisation := false,
    experimental := false, tagIsAnUpdate := false }

/-- Model of the `computedEncodingOptions` object spread
(src/src/encoder/encodingOptions.ts lines 104-109, the current encoder):
defaults overridden by every user-supplied field, with the version and text
encoding set explicitly. -/
def computedEncodingOptions (userOpts : UserEncodingOptions) (v : ID3Version) :
    EncodingOptions :=
  let d := defaultEncodingOptions v
  { ID3Version := v,
    textEncoding := userOpts.textEncoding.getD d.textEncoding,
    unsynchronisation := userOpts.unsynchronisation.getD d.unsynchronisation,
    experimental := userOpts.experimental.getD d.experimental,
    tagIsAnUpdate := userOpts.tagIsAnUpdate.getD d.tagIsAnUpdate,
    crcData := userOpts.crcData,
    tagRestrictions := userOpts.tagRestrictions }

/-- Model of the `TextEncodingType` constructor name dispatch
(src/src/utils/textEncodingType.ts lines 43-70): the four legal names map to
their wire bytes and anything else throws. -/
def textEncodingByteFromName (s : String) : Except String Nat :=
  if s = "ISO-8859-1" then .ok 0x00
  else if s = "UTF-16" then .ok 0x01
  else if s = "UTF-16BE" then .ok 0x02
  else if s = "UTF-8" then .ok 0x03
  else .error ("Invalid encoding type: " ++ s)

/-- The aggregated error thrown on a pinned version the data does not
support (src/src/encoder/encodingOptions.ts line 67): the reasons array is
interpolated into the template string, which joins it with commas. -/
def cannotEncodeMessage (v : ID3Version) (reasons : List String) : String :=
  "Cannot encode using ID3v2." ++ toString v.toNat ++ ": \n"
    ++ String.intercalate "," (reasons.map (fun r => "\t" ++ r ++ "\n"))

/-- The aggregated error thrown when no version fits
(src/src/encoder/encodingOptions.ts lines 87-94).  The template literal
spans several indented source lines; the embedded newline-and-tab runs are
reproduced with tabs only. -/
def allVersionsFailMessage (r2 r3 r4 : List String) : String :=
  let block : List String → String := fun rs =>
    String.intercalate "," (rs.map (fun r => "\t\t" ++ r ++ "\n"))
  "For all versions of the ID3v2 spec there is at least one component of the data that cannot be encoded;\n\n"
    ++ "\tID3v2.2:\n" ++ block r2 ++ "\n\n"
    ++ "\tID3v2.3:\n" ++ block r3 ++ "\n\n"
    ++ "\tID3v2.4:\n" ++ block r4 ++ "\n"

/-- Tail of the encoder once the target version is fixed
(src/src/encoder/encodingOptions.ts lines 96-124): build the
`TextEncodingType` (whose constructor rejects unknown names), compute the
effective options, encode every frame, concatenate, apply unsynchronisation
when the user asked for it, and prepend the tag header. -/
def encodeWithVersion (frames : List Frame) (userOpts : UserEncodingOptions)
    (v : ID3Version) : Except String (List Nat) := do
  let _ ← textEncodingByteFromName
    (userOpts.textEncoding.getD (defaultEncodingOptions v).textEncoding)
  let computed := computedEncodingOptions userOpts v
  let encodedFrames ← frames.mapM (fun f => f.encode computed)
  let encodedFrameData := encodedFrames.flatten
  let frameBuffer :=
    if userOpts.unsynchronisation.getD false then Unsynchronisation.encode encodedFrameData
    else encodedFrameData
  let header ← TagHeaderEncoder.encode frameBuffer.length computed
  return header ++ frameBuffer

/-- Model of the current encoder entry point (the default export embedded in
src/src/encoder/encodingOptions.ts lines 62-125, the variant that assembles
a complete tag): a pinned version is checked against every frame and the
global options and rejected with a single aggregated error; otherwise the
versions 4, 3, 2 are tried in order. -/
def encode (frames : List Frame) (userOpts : UserEncodingOptions) :
    Except String (List Nat) :=
  match userOpts.ID3Version with
  | some v =>
    let sup := isVersionSupported v frames userOpts
    if ¬sup.supported then .error (cannotEncodeMessage v sup.reasons)
    else encodeWithVersion frames userOpts v
  | none =>
    let s4 := isVersionSupported .v4 frames userOpts
    let s3 := isVersionSupported .v3 frames userOpts
    let s2 := isVersionSupported .v2 frames userOpts
    if s4.supported then encodeWithVersion frames userOpts .v4
    else if s3.supported then encodeWithVersion frames userOpts .v3
    else if s2.supported then encodeWithVersion frames userOpts .v2
    else .error (allVersionsFailMessage s2.reasons s3.reasons s4.reasons)

/-- Tag restrictions as parsed by the v2.4 tag-header decoder: each field
comes from `parseInt` over a slice of the unpadded binary string of the
restrictions byte, so short strings yield NaN fields (`none`). -/
structure DecodedTagRestrictions where
  tagSize : Option Nat
  textEncoding : Option Nat
  textFieldSize : Option Nat
  imageEncoding : Option Nat
  imageSize : Option Nat
deriving DecidableEq, Repr

/-- Decoded tag header (union of the IV2Header / IV3Header / IV4Header
interfaces of src/src/decoder/decodeTagHeader.ts; fields that a version does
not produce keep their defaults). -/
structure TagHeader where
  version : ID3Version
  headerSize : Nat
  tagSize : Nat
  unsynchronisation : Bool
  compression : Bool := false
  experimental : Bool := false
  footerPresent : Bool := false
  crcData : Option Int := none
  paddingSize : Option Nat := none
  tagIsAnUpdate : Option Bool := none
  tagRestrictions : Option DecodedTagRestrictions := none
deriving DecidableEq, Repr

/-- Model of `x.toString(2).split("").map(bit => bit === "1")` for a signed
JavaScript number: a negative number renders with a leading minus sign,
which compares unequal to "1" and becomes `false`, followed by the binary
digits of the absolute value. -/
def jsIntBits (i : Int) : List Bool :=
  if i < 0 then false :: jsBits i.natAbs else jsBits i.toNat

/-- Model of `substr(start, len)` on a JavaScript string. -/
def substrJS (s : String) (start len : Nat) : String :=
  String.mk ((s.data.drop start).take len)

/-- Model of the default export of src/src/decoder/decodeTagHeader.ts (lines
120-209).  The flag byte is rendered with `toString(2)` and split — with no
zero padding, so for flag bytes below 0x80 the bit list is shorter than 8
and the flags shift (the claims below exercise this).  Missing list entries
read as `undefined`, i.e. `false`. -/
def decodeTagHeader (data : List Nat) : Except String TagHeader := do
  let version := jsGet data 3
  let rawSize ← if version = 2 then readIntBE data 6 3 else readInt32BE data 6
  let tagSize := SynchsafeInteger.decodeJS rawSize
  let flags := jsBits (jsGet data 5)
  let flag : Nat → Bool := fun i => flags.getD i false
  match version with
  | 2 =>
    return { version := .v2, headerSize := 10, tagSize := tagSize + 10,
             unsynchronisation := flag 0, compression := flag 1 }
  | 3 =>
    if flag 1 then do
      let extSizeRaw ← readInt32BE data 10
      let headerSize := 10 + SynchsafeInteger.decodeJS extSizeRaw + 4
      let padRaw ← readInt32BE data 14
      let extFlagsRaw ← readInt16BE data 14
      let extendedFlags := jsIntBits extFlagsRaw
      let crcData ←
        if extendedFlags.getD 0 false then some <$> readInt32BE data 20
        else pure none
      return { version := .v3, crcData, headerSize, tagSize := tagSize + 10,
               paddingSize := some (SynchsafeInteger.decodeJS padRaw),
               unsynchronisation := flag 0, experimental := flag 2 }
    else
      return { version := .v3, headerSize := 10, tagSize := tagSize + 10,
               unsynchronisation := flag 0, experimental := flag 2 }
  | 4 =>
    if flag 1 then do
      let extSizeRaw ← readInt32BE data 10
      let headerSize := 10 + SynchsafeInteger.decodeJS extSizeRaw + 4
      let extendedFlags := jsBits (jsGet data 15)
      let extFlag : Nat → Bool := fun i => extendedFlags.getD i false
      let crcData ←
        if extFlag 1 then do
          let raw ← readIntBE data 16 5
          pure (some ((SynchsafeInteger.decodeJS raw : Nat) : Int))
        else pure none
      let flagDataOffset := if extFlag 1 then 21 else 16
      let tagRestrictions :=
        if extFlag 2 then
          let rb := natBinString (jsGet data flagDataOffset)
          some { tagSize := jsParseInt2 (substrJS rb 0 2),
                 textEncoding := jsParseInt2 (substrJS rb 2 1),
                 textFieldSize := jsParseInt2 (substrJS rb 3 2),
                 imageEncoding := jsParseInt2 (substrJS rb 5 1),
                 imageSize := jsParseInt2 (substrJS rb 6 2) : DecodedTagRestrictions }
        else none
      return { version := .v4, unsynchronisation := flag 0, tagSize := tagSize + 10,
               experimental := flag 2, footerPresent := flag 3, headerSize,
               crcData, tagIsAnUpdate := some (extFlag 0), tagRestrictions }
    else
      return { version := .v4, unsynchronisation := flag 0, tagSize := tagSize + 10,
               experimental := flag 2, footerPresent := flag 3, headerSize := 10 }
  | _ => .error ("Invalid ID3 version: " ++ toString version)

/-- Decoded frame header (interface IFrameHeader,
src/src/decoder/decodeTagHeader.ts lines 216-236 of the appended frame
header codec). -/
structure FrameHeader where
  headerSize : Nat
  frameSize : Nat
  identifier : String
  flags : Option FrameFlags := none
deriving DecidableEq, Repr

/-- Model of `decodeFrameHeader` (src/src/decoder/decodeTagHeader.ts lines
385-438): the identifier (3 or 4 bytes), the size field decoded as a
synchsafe integer FOR EVERY VERSION (`Utils.decodeSynchsafeInteger` applied
to a plain signed big-endian read), and for v2.3/v2.4 the 2-byte flag word
(again rendered through unpadded `toString(2)`), with the extra header bytes
implied by grouping/compression/encryption/data-length flags. -/
def decodeFrameHeader (data : List Nat) (v : ID3Version) :
    Except String FrameHeader := do
  let idLen := getIdentifierLength v
  let identifier := strFromLatin1 (jsSlice data 0 idLen)
  let rawSize ← readIntBE data idLen idLen
  let frameSize := SynchsafeInteger.decodeJS rawSize
  match v with
  | .v2 =>
    return { headerSize := 6, frameSize := frameSize + 6, identifier }
  | _ => do
    let flagsRaw ← readInt16BE data 8
    let bits := jsIntBits flagsRaw
    let flag : Nat → Bool := fun i => bits.getD i false
    let fl : FrameFlags :=
      if v = .v3 then
        { discardOnTagAlteration := flag 0, discardOnFileAlteration := flag 1,
          readOnly := flag 2, compression := flag 8, encryption := flag 9,
          groupingIdentity := flag 10 }
      else
        { discardOnTagAlteration := flag 1, discardOnFileAlteration := flag 2,
          readOnly := flag 3, groupingIdentity := flag 9, compression := flag 12,
          encryption := flag 13, unsynchronisation := some (flag 14),
          dataLengthIndicator := some (flag 15) }
    let headerSize := 10 + (if fl.groupingIdentity then 1 else 0)
      + (if fl.compression ∧ v = .v3 then 4 else 0)
      + (if fl.encryption then 1 else 0)
      + (if fl.dataLengthIndicator.getD false then 4 else 0)
    return { headerSize, frameSize := frameSize + 10, identifier, flags := some fl }

/-- Model of the buffer branch of the `PopularimeterFrame` constructor
(src/src/frames/popularimeter.ts lines 51-62): the email terminator index
comes from `indexOf(0x00)` over the WHOLE frame buffer — header included —
while the three fields are then read from the post-header slice at that
index, exactly as the source does. -/
def popularimeterDecode (data : List Nat) (v : ID3Version) :
    Except String PopularimeterValue := do
  let headerInfo ← decodeFrameHeader data v
  let frameContent := jsSliceFrom data headerInfo.headerSize
  let emailTerminator := jsIndexOf data 0x00
  let email := jsSlice frameContent 0 emailTerminator
  let rating := jsGet frameContent (emailTerminator + 1)
  let playCount ← readIntBE frameContent (emailTerminator + 2)
    ((frameContent.length : Int) - (emailTerminator + 3))
  return { email, rating, playCount }

/-- The frame variants the current tag decoder can construct, one per
constructor invoked by `Decoder.decodeFrame`. -/
inductive RoutedFrame where
  | textInformation
  | urlLink
  | ufid
  | userDefinedTextInformation
  | userDefinedURLLink
  | involvedPeopleList
  | musicCDIdentifier
  | eventTimingCodes
  | mpegLocationLookupTable
  | synchronisedTempoCodes
  | unsynchronisedLyrics
  | synchronisedLyrics
  | comment
deriving DecidableEq, Repr

/-- Model of the identifier routing of `Decoder.decodeFrame`
(src/unnamed/part_025 lines 81-136): the T* family (minus TXX/TXXX) and the
W* family (minus WXX/WXXX) first, then the explicit identifier classes; any
other identifier throws "Unsupported frame type". -/
def decodeFrameDispatch (identifier : String) : Except String RoutedFrame :=
  if identifier.data.head? = some 'T' ∧ identifier ≠ "TXX" ∧ identifier ≠ "TXXX" then
    .ok .textInformation
  else if identifier.data.head? = some 'W' ∧ identifier ≠ "WXX" ∧ identifier ≠ "WXXX" then
    .ok .urlLink
  else
    match identifier with
    | "UFI" | "UFID" => .ok .ufid
    | "TXX" | "TXXX" => .ok .userDefinedTextInformation
    | "WXX" | "WXXX" => .ok .userDefinedURLLink
    | "IPL" | "IPLS" => .ok .involvedPeopleList
    | "MCI" | "MCDI" => .ok .musicCDIdentifier
    | "ETC" | "ETCO" => .ok .eventTimingCodes
    | "MLL" | "MLLT" => .ok .mpegLocationLookupTable
    | "STC" | "SYTC" => .ok .synchronisedTempoCodes
    | "ULT" | "USLT" => .ok .unsynchronisedLyrics
    | "SLT" | "SYLT" => .ok .synchronisedLyrics
    | "COM" | "COMM" => .ok .comment
    | _ => .error ("Unsupported frame type: " ++ identifier)

end Id3
namespace Id3

theorem tbWindow (j k : Nat) :
    ∀ i, Nat.testBit ((2 ^ j - 1) <<< k) i = decide (k ≤ i ∧ i < k + j) := by
  intro i
  simp only [Nat.testBit_shiftLeft, Nat.testBit_two_pow_sub_one]
  by_cases h : k ≤ i <;> simp [h, decide_eq_decide] <;> omega

theorem tb127 : ∀ i, Nat.testBit 127 i = decide (0 ≤ i ∧ i < 0 + 7) := by
  rw [show (127 : Nat) = (2 ^ 7 - 1) <<< 0 from by decide]
  exact tbWindow 7 0

theorem tb32767 : ∀ i, Nat.testBit 32767 i = decide (0 ≤ i ∧ i < 0 + 15) := by
  rw [show (32767 : Nat) = (2 ^ 15 - 1) <<< 0 from by decide]
  exact tbWindow 15 0

theorem tb8388607 : ∀ i, Nat.testBit 8388607 i = decide (0 ≤ i ∧ i < 0 + 23) := by
  rw [show (8388607 : Nat) = (2 ^ 23 - 1) <<< 0 from by decide]
  exact tbWindow 23 0

theorem tbFFFFFFFF : ∀ i, Nat.testBit 4294967295 i = decide (0 ≤ i ∧ i < 0 + 32) := by
  rw [show (4294967295 : Nat) = (2 ^ 32 - 1) <<< 0 from by decide]
  exact tbWindow 32 0

theorem tb7F000000 : ∀ i, Nat.testBit 2130706432 i = decide (24 ≤ i ∧ i < 24 + 7) := by
  rw [show (2130706432 : Nat) = (2 ^ 7 - 1) <<< 24 from by decide]
  exact tbWindow 7 24

theorem tb7F0000 : ∀ i, Nat.testBit 8323072 i = decide (16 ≤ i ∧ i < 16 + 7) := by
  rw [show (8323072 : Nat) = (2 ^ 7 - 1) <<< 16 from by decide]
  exact tbWindow 7 16

theorem tb7F00 : ∀ i, Nat.testBit 32512 i = decide (8 ≤ i ∧ i < 8 + 7) := by
  rw [show (32512 : Nat) = (2 ^ 7 - 1) <<< 8 from by decide]
  exact tbWindow 7 8

theorem testBit_high_false {n : Nat} (h : n < 2 ^ 28) :
    ∀ j, 28 ≤ j → n.testBit j = false := by
  intro j hj
  exact Nat.testBit_lt_two_pow (lt_of_lt_of_le h (Nat.pow_le_pow_right (by norm_num) hj))

set_option maxHeartbeats 2000000 in
theorem synchsafe_roundtrip (n : Nat) (h : n < 2 ^ 28) :
    SynchsafeInteger.decode (SynchsafeInteger.encode n) = n := by
  have hb := testBit_high_false h
  apply Nat.eq_of_testBit_eq
  intro i
  rcases Nat.lt_or_ge i 32 with hi | hi
  · unfold SynchsafeInteger.decode SynchsafeInteger.encode SynchsafeInteger.step
    simp only [Nat.testBit_or, Nat.testBit_and, Nat.testBit_shiftLeft, Nat.testBit_shiftRight,
      Nat.testBit_mod_two_pow, Nat.testBit_xor, tb127, tb32767, tb8388607, tbFFFFFFFF,
      tb7F000000, tb7F0000, tb7F00]
    interval_cases i <;>
      simp [tb127, tb32767, tb8388607, tbFFFFFFFF, tb7F000000, tb7F0000, tb7F00, hb]
  · have hsr : ∀ a : Nat, a >>> 1 ≤ a := by
      intro a
      rw [Nat.shiftRight_eq_div_pow]
      exact Nat.div_le_self _ _
    have hstep : ∀ a b : Nat, a < 2 ^ 32 → b < 2 ^ 32 → ((a >>> 1) ||| b) < 2 ^ 32 := by
      intro a b ha hb2
      exact Nat.or_lt_two_pow (lt_of_le_of_lt (hsr a) ha) hb2
    have hdec : SynchsafeInteger.decode (SynchsafeInteger.encode n) < 2 ^ 32 := by
      unfold SynchsafeInteger.decode
      apply hstep
      · apply hstep
        · apply hstep
          · exact Nat.or_lt_two_pow (by norm_num) (Nat.and_lt_two_pow _ (by norm_num))
          · exact Nat.and_lt_two_pow _ (by norm_num)
        · exact Nat.and_lt_two_pow _ (by norm_num)
      · exact Nat.and_lt_two_pow _ (by norm_num)
    rw [Nat.testBit_lt_two_pow (lt_of_lt_of_le hdec (Nat.pow_le_pow_right (by norm_num) hi)),
      hb i (by omega)]

set_option maxHeartbeats 2000000 in
theorem synchsafe_msb (n : Nat) (h : n < 2 ^ 28) :
    Nat.testBit (SynchsafeInteger.encode n) 7 = false ∧
      Nat.testBit (SynchsafeInteger.encode n) 15 = false ∧
      Nat.testBit (SynchsafeInteger.encode n) 23 = false ∧
      Nat.testBit (SynchsafeInteger.encode n) 31 = false := by
  have hb := testBit_high_false h
  refine ⟨?_, ?_, ?_, ?_⟩ <;>
    (unfold SynchsafeInteger.encode SynchsafeInteger.step
     simp only [Nat.testBit_or, Nat.testBit_and, Nat.testBit_shiftLeft, Nat.testBit_shiftRight,
       Nat.testBit_mod_two_pow, Nat.testBit_xor, tb127, tb32767, tb8388607, tbFFFFFFFF,
       tb7F000000, tb7F0000, tb7F00]
     simp [hb])

/-- Claim C4: for every natural number below 2^28, decoding the synchsafe
encoding gives the number back, and each of the four bytes of the 32-bit
encoded value has its most significant bit (bits 7, 15, 23, 31) clear. -/
theorem claim4_synchsafe_bijection (n : Nat) (h : n < 2 ^ 28) :
    SynchsafeInteger.decode (SynchsafeInteger.encode n) = n ∧
      Nat.testBit (SynchsafeInteger.encode n) 7 = false ∧
      Nat.testBit (SynchsafeInteger.encode n) 15 = false ∧
      Nat.testBit (SynchsafeInteger.encode n) 23 = false ∧
      Nat.testBit (SynchsafeInteger.encode n) 31 = false :=
  ⟨synchsafe_roundtrip n h, synchsafe_msb n h⟩

theorem claim4_witness :
    123456789 < 2 ^ 28 ∧
      (SynchsafeInteger.decode (SynchsafeInteger.encode 123456789) = 123456789 ∧
        Nat.testBit (SynchsafeInteger.encode 123456789) 7 = false ∧
        Nat.testBit (SynchsafeInteger.encode 123456789) 15 = false ∧
        Nat.testBit (SynchsafeInteger.encode 123456789) 23 = false ∧
        Nat.testBit (SynchsafeInteger.encode 123456789) 31 = false) :=
  ⟨by decide, claim4_synchsafe_bijection 123456789 (by decide)⟩

namespace Unsynchronisation

theorem decode_cons_of_ne (x : Nat) (l : List Nat) (hx : x ≠ 0xFF) :
    decode (x :: l) = x :: decode l := by
  cases l with
  | nil => simp [decode]
  | cons y t => simp [decode, hx]

theorem encode_ne_nil (x : Nat) (l : List Nat) : encode (x :: l) ≠ [] := by
  cases l with
  | nil =>
    by_cases hx : x = 0xFF <;> simp [encode, hx]
  | cons y t =>
    by_cases hx : x = 0xFF
    · by_cases hy : y = 0x00 ∨ 0xE0 ≤ y <;> simp [encode, hx, hy]
    · simp [encode, hx]

end Unsynchronisation

/-- Claim C3, counterexample: the byte sequence 0xFF 0x50 does not survive
the round trip — `encode` inserts nothing after a 0xFF followed by 0x50,
but `decode` skips one byte after every 0xFF, so the 0x50 is lost. -/
theorem claim3_counterexample :
    Unsynchronisation.decode (Unsynchronisation.encode [0xFF, 0x50]) ≠ [0xFF, 0x50] := by
  decide

/-- Claim C3, amended: the round trip
`Unsynchronisation.decode (Unsynchronisation.encode b) = b` holds on the
inputs in which every 0xFF is the last byte or is followed by 0x00 or a byte
at least 0xE0 (the inputs on which the encoder's insertion rule fires after
every 0xFF), not on all byte sequences. -/
theorem claim3_unsync_roundtrip (b : List Nat)
    (hb : Unsynchronisation.coveredInput b = true) :
    Unsynchronisation.decode (Unsynchronisation.encode b) = b := by
  induction b with
  | nil => rfl
  | cons x rest ih =>
    cases rest with
    | nil =>
      by_cases hx : x = 0xFF
      · subst hx; rfl
      · simp [Unsynchronisation.encode, hx, Unsynchronisation.decode]
    | cons y t =>
      have hs2 : Unsynchronisation.coveredInput (y :: t) = true := by
        simp only [Unsynchronisation.coveredInput, Bool.and_eq_true] at hb
        exact hb.2
      have hcond : x ≠ 0xFF ∨ y = 0x00 ∨ 0xE0 ≤ y := by
        simp only [Unsynchronisation.coveredInput, Bool.and_eq_true, Bool.or_eq_true,
          decide_eq_true_eq] at hb
        tauto
      by_cases hx : x = 0xFF
      · have hy : y = 0x00 ∨ 0xE0 ≤ y := by
          rcases hcond with h | h
          · exact absurd hx h
          · exact h
        subst hx
        rw [show Unsynchronisation.encode (0xFF :: y :: t)
            = 0xFF :: 0x00 :: Unsynchronisation.encode (y :: t) from by
          simp [Unsynchronisation.encode, hy]]
        rw [show Unsynchronisation.decode (0xFF :: 0x00 :: Unsynchronisation.encode (y :: t))
            = 0xFF :: Unsynchronisation.decode (Unsynchronisation.encode (y :: t)) from by
          simp [Unsynchronisation.decode]]
        rw [ih hs2]
      · rw [show Unsynchronisation.encode (x :: y :: t)
            = x :: Unsynchronisation.encode (y :: t) from by
          simp [Unsynchronisation.encode, hx]]
        cases hE : Unsynchronisation.encode (y :: t) with
        | nil => exact absurd hE (Unsynchronisation.encode_ne_nil y t)
        | cons e es =>
          rw [Unsynchronisation.decode_cons_of_ne x (e :: es) hx, ← hE, ih hs2]

theorem claim3_witness :
    Unsynchronisation.coveredInput [0xFF, 0x00, 0x41, 0xFF, 0xE0, 0xFF] = true ∧
      Unsynchronisation.decode
          (Unsynchronisation.encode [0xFF, 0x00, 0x41, 0xFF, 0xE0, 0xFF])
        = [0xFF, 0x00, 0x41, 0xFF, 0xE0, 0xFF] :=
  ⟨by decide, claim3_unsync_roundtrip _ (by decide)⟩

/-- Claim C2, counterexample: the current tag decoder's dispatch throws for
the identifier "POPM", although the claim says tag decode constructs a
typed popularimeter frame for the class POP/POPM and does not fail. -/
theorem claim2_counterexample :
    decodeFrameDispatch "POPM" = .error "Unsupported frame type: POPM" := by
  rfl

/-- Claim C2, amended: the dispatcher succeeds exactly on the T* family
(minus TXX/TXXX, routed explicitly), the W* family (minus WXX/WXXX) and the
eleven identifier classes up to COM/COMM; every identifier of the classes
RVA/RVAD, RVA2, EQU/EQUA, EQU2, REV/RVRB, PIC/APIC, GEO/GEOB, CNT/PCNT,
POP/POPM, BUF/RBUF and CRA/AENC — listed by the claim as routed — is fatal,
as is every other unlisted identifier. -/
theorem claim2_dispatch_characterisation :
    (∀ id : String,
      (decodeFrameDispatch id).isOk = true ↔
        ((id.data.head? = some (Char.ofNat 84) ∧ id ≠ "TXX" ∧ id ≠ "TXXX")
          ∨ (id.data.head? = some (Char.ofNat 87) ∧ id ≠ "WXX" ∧ id ≠ "WXXX")
          ∨ id ∈ ["UFI", "UFID", "TXX", "TXXX", "WXX", "WXXX", "IPL", "IPLS", "MCI", "MCDI",
              "ETC", "ETCO", "MLL", "MLLT", "STC", "SYTC", "ULT", "USLT", "SLT", "SYLT",
              "COM", "COMM"])) ∧
      (∀ id ∈ ["RVA", "RVAD", "RVA2", "EQU", "EQUA", "EQU2", "REV", "RVRB", "PIC", "APIC",
          "GEO", "GEOB", "CNT", "PCNT", "POP", "POPM", "BUF", "RBUF", "CRA", "AENC"],
        decodeFrameDispatch id = .error ("Unsupported frame type: " ++ id)) := by
  constructor
  · intro id
    unfold decodeFrameDispatch
    split
    · simp_all [Except.isOk, Except.toBool]
    · split
      · simp_all [Except.isOk, Except.toBool]
      · split <;> simp_all [Except.isOk, Except.toBool]
  · intro id hid
    fin_cases hid <;> rfl

set_option maxRecDepth 10000 in
/-- Claim C5: the claim says a v2.3 frame header carries its size as a plain
big-endian 32-bit integer and only v2.4 is synchsafe-coded.  The code
synchsafe-codes the size for every version: a popularimeter frame with a
128-byte body encoded at v2.3 carries the size field 00 00 01 00
(synchsafe 128) instead of 00 00 00 80, and the frame-header decoder applies
the synchsafe decode to a v2.3 size field, so a wire-format field holding
plain big-endian 128 (0x80, a byte with its MSB set, cleared by the
synchsafe decode) is read back as frame size 0 (+ 10 bytes of header). -/
theorem claim5_v3_frame_size_synchsafe :
    (Frame.encode (mkPopularimeterFrame
          { email := List.replicate 123 97, rating := 0, playCount := 5 })
        (computedEncodingOptions { ID3Version := some .v3 } .v3)).map
        (fun b => ((b.drop 4).take 4, b.length)) = .ok ([0, 0, 1, 0], 138) ∧
      ([0, 0, 1, 0] : List Nat) ≠ [0, 0, 0, 128] ∧
      SynchsafeInteger.decodeJS 128 = 0 ∧
      (decodeFrameHeader ([85, 70, 73, 68, 0, 0, 0, 128, 0, 0] ++ List.replicate 128 9)
          .v3).map (fun h => h.frameSize) = .ok 10 := by
  refine ⟨rfl, by decide, by decide, rfl⟩

set_option maxRecDepth 10000 in
/-- Claim C6: the claim says tag-header decode reports unsynchronisation iff
bit 0x80 is set, extended-header presence iff 0x40, experimental iff 0x20,
independently of the other bits.  The decoder splits the flag byte's
`toString(2)` with no zero padding, so for any flag byte below 0x80 the bits
shift: a v2.3 header with flag byte 0x20 (only the experimental bit) decodes
with unsynchronisation = true and experimental = false, and one with flag
byte 0x40 (only the extended-header bit) decodes with unsynchronisation =
true and no extended header read. -/
theorem claim6_tag_flag_bits_misparsed :
    decodeTagHeader [73, 68, 51, 3, 0, 0x20, 0, 0, 0, 0] =
      .ok { version := .v3, headerSize := 10, tagSize := 10,
            unsynchronisation := true, experimental := false } ∧
      decodeTagHeader [73, 68, 51, 3, 0, 0x40, 0, 0, 0, 0] =
        .ok { version := .v3, headerSize := 10, tagSize := 10,
              unsynchronisation := true, experimental := false } ∧
      0x20 &&& 0x80 = 0 ∧ 0x40 &&& 0x40 ≠ 0 ∧ 0x40 &&& 0x80 = 0 := by
  refine ⟨rfl, rfl, by decide, by decide, by decide⟩

set_option maxRecDepth 10000 in
/-- Claim C7: the claim says the POPM wire format is
email 0x00 rating playCount and that decode inverts encode.  The encoder
emits no 0x00 after the email (bytes 97 98 99 then immediately the rating
7), and the decoder takes the email-terminator index from `indexOf(0x00)`
over the whole frame buffer — the first zero lies inside the header's size
field at index 4 — so the frame for (email "abc", rating 7, playCount 5)
decodes to (email "abc\x07", rating 0, playCount 0). -/
theorem claim7_popularimeter_roundtrip_broken :
    popularimeterEncodeContent { email := [97, 98, 99], rating := 7, playCount := 5 } =
      .ok [97, 98, 99, 7, 0, 0, 0, 5] ∧
      Frame.encode (mkPopularimeterFrame { email := [97, 98, 99], rating := 7, playCount := 5 })
          (computedEncodingOptions { ID3Version := some .v4 } .v4) =
        .ok [80, 79, 80, 77, 0, 0, 0, 8, 0, 0, 97, 98, 99, 7, 0, 0, 0, 5] ∧
      popularimeterDecode [80, 79, 80, 77, 0, 0, 0, 8, 0, 0, 97, 98, 99, 7, 0, 0, 0, 5] .v4 =
        .ok { email := [97, 98, 99, 7], rating := 0, playCount := 0 } ∧
      ({ email := [97, 98, 99, 7], rating := 0, playCount := 0 } : PopularimeterValue) ≠
        { email := [97, 98, 99], rating := 7, playCount := 5 } := by
  refine ⟨rfl, rfl, rfl, by decide⟩

set_option maxRecDepth 10000 in
/-- Claim C8: the claim says each deviation entry after the 10-byte preamble
is the byte deviation followed by the millisecond deviation at the declared
widths.  The encoder writes `ref.byteDeviation` twice: the frame with one
reference (byteDeviation 1, millisecondDeviation 2) and declared widths of
8 bits each produces the deviation stream 01 01 instead of 01 02. -/
theorem claim8_mllt_writes_byte_deviation_twice :
    mlltEncodeContent { MPEGFramesBetweenReferences := 1, bytesBetweenReferences := 2,
                        millisecondsBetweenReferences := 3,
                        deviationOfReferences :=
                          [{ byteDeviation := 1, millisecondDeviation := 2 }] } =
      .ok [0, 1, 0, 0, 0, 0, 3, 0, 8, 8, 1, 1] ∧
      List.drop 10 [0, 1, 0, 0, 0, 0, 3, 0, 8, 8, 1, 1] = ([1, 1] : List Nat) ∧
      ([1, 1] : List Nat) ≠ [1, 2] := by
  refine ⟨rfl, rfl, by decide⟩

/-- Claim C9, counterexample: the claim says an owner identifier longer than
4 characters is truncated; the 5-character owner "abcde" is written in full
(its 5 bytes exactly fill the 5-byte field, with no truncation and no 0x00
separator). -/
theorem claim9_counterexample :
    ufidEncodeContent "UFID" { ownerIdentifier := [97, 98, 99, 100, 101], identifier := [7] } =
      .ok [97, 98, 99, 100, 101, 7] ∧
      (ufidEncodeContent "UFID"
          { ownerIdentifier := [97, 98, 99, 100, 101], identifier := [7] }).map
        (fun b => b.take 5) = .ok [97, 98, 99, 100, 101] := by
  refine ⟨rfl, rfl⟩

/-- Claim C9, amended: `encodeContent` sizes the owner field from the frame
identifier ("UFID".length + 1 = 5 bytes): the encoded body is the owner
truncated to 5 bytes, zero-padded up to 5 bytes when shorter (an owner of
exactly 5 bytes fills the field with no 0x00 separator; for shorter owners
the zeros beyond the first become part of the identifier field on decode),
followed by the identifier bytes; its length is always 5 plus the
identifier buffer's length. -/
theorem claim9_ufid_owner_field (owner ident : List Nat) :
    ufidEncodeContent "UFID" { ownerIdentifier := owner, identifier := ident } =
      .ok ((owner.take 5 ++ List.replicate (5 - owner.length) 0) ++ ident) ∧
      ((owner.take 5 ++ List.replicate (5 - owner.length) 0) ++ ident).length
        = 5 + ident.length := by
  constructor
  · have htk : owner.take (min owner.length 5) = owner.take 5 := by
      rcases Nat.le_total owner.length 5 with h | h
      · rw [Nat.min_eq_left h, List.take_length, List.take_of_length_le h]
      · rw [Nat.min_eq_right h]
    have hrep : 5 - owner.length ⊓ 5 = 5 - owner.length := by omega
    have hl : "UFID".length = 4 := rfl
    simp only [ufidEncodeContent, bufWrite, spliceAt, bufAlloc]
    simp [htk, hl, hrep, List.drop_replicate, List.length_take, pure, Except.pure]
    rw [show ([0, 0, 0, 0, 0] : List Nat) = List.replicate 5 0 from rfl, List.drop_replicate]
    congr 1
    omega
  · simp [List.length_take]
    omega

/-- Claim C1: with a pinned ID3 version that some frame does not support
(under the flag or content criteria combined by `Frame.supportsVersion`),
encode fails with the single error aggregating the per-frame reasons; in
particular, encoding the frame list [EQU2] with ID3Version 3 fails with a
message containing "only supported in ID3v2.4" (the message is spelled out
with that phrase as an explicit infix). -/
theorem claim1_pinned_version_rejection :
    (∀ (frames : List Frame) (opts : UserEncodingOptions) (v : ID3Version),
        opts.ID3Version = some v →
        (isVersionSupported v frames opts).supported = false →
        encode frames opts =
          .error (cannotEncodeMessage v (isVersionSupported v frames opts).reasons)) ∧
      encode [mkEqualisationV2Frame
            { identification := [], interpolationMethod := 0, adjustments := [] }]
          { ID3Version := some .v3 } =
        .error ("Cannot encode using ID3v2.3: \n\tFrame of type equalisationV2 cannot be encoded using ID3v2.3: Equalisation v2 frames are "
          ++ "only supported in ID3v2.4" ++ "\n") := by
  constructor
  · intro frames opts v h hsup
    unfold encode
    rw [h]
    simp [hsup]
  · rfl

theorem claim1_witness :
    (isVersionSupported .v3
        [mkEqualisationV2Frame
          { identification := [], interpolationMethod := 0, adjustments := [] }]
        { ID3Version := some .v3 }).supported = false ∧
      encode [mkEqualisationV2Frame
            { identification := [], interpolationMethod := 0, adjustments := [] }]
          { ID3Version := some .v3 } =
        .error (cannotEncodeMessage .v3
          (isVersionSupported .v3
            [mkEqualisationV2Frame
              { identification := [], interpolationMethod := 0, adjustments := [] }]
            { ID3Version := some .v3 }).reasons) :=
  ⟨rfl, claim1_pinned_version_rejection.1 _ _ _ rfl rfl⟩

theorem generateExtendedHeaderV3_error (o : EncodingOptions) :
    TagHeaderEncoder.generateExtendedHeaderV3 o =
      .error "ERR_OUT_OF_RANGE: value out of range" := rfl

theorem tagHeaderEncode_v3_crc_error (n : Nat) (o : EncodingOptions)
    (hv : o.ID3Version = .v3) (hc : o.crcData.isSome = true) :
    TagHeaderEncoder.encode n o = .error "ERR_OUT_OF_RANGE: value out of range" := by
  unfold TagHeaderEncoder.encode TagHeaderEncoder.requiresExtendedHeader
  rw [hv]
  simp [hc, generateExtendedHeaderV3_error, bind, Except.bind]

theorem exceptBind_isOk_false {α β : Type} (x : Except String α)
    (g : α → Except String β) (h : ∀ a, (g a).isOk = false) :
    (x >>= g).isOk = false := by
  cases x with
  | error e => rfl
  | ok a => exact h a

theorem encodeWithVersion_v3_crc_isOk_false (frames : List Frame)
    (u : UserEncodingOptions) (hc : u.crcData.isSome = true) :
    (encodeWithVersion frames u .v3).isOk = false := by
  have hcc : (computedEncodingOptions u .v3).crcData.isSome = true := hc
  have henc : ∀ n, TagHeaderEncoder.encode n (computedEncodingOptions u .v3) =
      .error "ERR_OUT_OF_RANGE: value out of range" :=
    fun n => tagHeaderEncode_v3_crc_error n _ rfl hcc
  unfold encodeWithVersion
  apply exceptBind_isOk_false
  intro te
  apply exceptBind_isOk_false
  intro fs
  dsimp only
  rw [henc]
  rfl

/-- Claim C10: with ID3Version 3 and crcData supplied the v2.3
extended-header generator can never return (its CRC write targets offset 10
of a 10-byte buffer, which is out of bounds — and execution has in fact
already thrown at the extended-flag write, whose value 32768 exceeds the
signed 16-bit range of `writeInt16BE`), so tag-header encoding always
throws and encode never returns a byte buffer for such options. -/
theorem claim10_v3_crc_never_returns :
    (∀ (c : Int) (buf : List Nat), buf.length = 10 → (writeInt32BE buf c 10).isOk = false) ∧
      (∀ o : EncodingOptions, (TagHeaderEncoder.generateExtendedHeaderV3 o).isOk = false) ∧
      (∀ (n : Nat) (o : EncodingOptions), o.ID3Version = .v3 → o.crcData.isSome = true →
        (TagHeaderEncoder.encode n o).isOk = false) ∧
      (∀ (frames : List Frame) (u : UserEncodingOptions), u.ID3Version = some .v3 →
        u.crcData.isSome = true → (encode frames u).isOk = false) := by
  refine ⟨?_, ?_, ?_, ?_⟩
  · intro c buf hlen
    unfold writeInt32BE writeBEchecked
    split
    · simp [Except.isOk, Except.toBool]
    · rw [if_pos (by omega)]
      simp [Except.isOk, Except.toBool]
  · intro o
    rw [generateExtendedHeaderV3_error]
    rfl
  · intro n o hv hc
    rw [tagHeaderEncode_v3_crc_error n o hv hc]
    rfl
  · intro frames u hu hc
    unfold encode
    rw [hu]
    cases hsup : (isVersionSupported .v3 frames u).supported with
    | false => simp [hsup, Except.isOk, Except.toBool]
    | true => simp [hsup, encodeWithVersion_v3_crc_isOk_false frames u hc]

theorem claim10_witness :
    ((bufAlloc 10).length = 10 ∧ (writeInt32BE (bufAlloc 10) 99 10).isOk = false) ∧
      (TagHeaderEncoder.encode 0
          { ID3Version := .v3, textEncoding := "ISO-8859-1", unsynchronisation := false,
            experimental := false, tagIsAnUpdate := false, crcData := some 99 }).isOk = false ∧
      (encode [] { ID3Version := some .v3, crcData := some 99 }).isOk = false :=
  ⟨⟨rfl, claim10_v3_crc_never_returns.1 99 (bufAlloc 10) rfl⟩,
    claim10_v3_crc_never_returns.2.2.1 0 _ rfl rfl,
    claim10_v3_crc_never_returns.2.2.2 [] _ rfl rfl⟩

end Id3
